import Mathlib

/-!
Verification of the `llvm::Str` / `llvm::String` string-handling module
(src/string.rs) of the llvm-rs bindings.

Shallow embedding conventions:
* Memory is a list of bytes (`List Nat`, each byte `< 256` where it matters);
  a raw pointer (`*const i8` / `*mut i8`) is an index into that list.
* A Rust `&llvm::Str` is, in the source, literally a transmuted pointer; we
  model it as a one-field structure holding the pointer value.
* `CStr::from_ptr(p).to_bytes()` scans forward from `p` to the first zero
  byte; we model it as `cStrToBytes`, returning `none` when no terminator
  exists before the end of memory (which is undefined behaviour in the
  source, so theorems take the existence of a terminator as a hypothesis).
* A Rust `&str` is a UTF-8 byte sequence; decoding "to native text" returns
  the byte sequence of the resulting `str`.  The checked conversion
  (`CStr::to_str().expect(..)`) is modelled with `StrDecode`, whose
  `panicked` constructor models the fatal `expect` panic carrying the
  message; the unchecked conversion (`str::from_utf8_unchecked`) passes the
  bytes through without validation and therefore always produces `ok`.
* The external release entry point `LLVMDisposeMessage` is opaque foreign
  code; calls to it are modelled as emitted events, and Rust's move/drop
  discipline for a non-`Copy` type is modelled as a lifecycle trace: a
  construction, a number of moves (each emitting no events), then the
  `Drop` glue once when the value goes out of scope.
-/

/-- Bytes of a C string starting at the head of the list: everything up to,
and not including, the first zero byte; `none` if there is no zero byte. -/
def takeUntilZero : List Nat → Option (List Nat)
  | [] => none
  | b :: bs => if b = 0 then some [] else (takeUntilZero bs).map (fun t => b :: t)

/-- `CStr::from_ptr(p).to_bytes()`: scan memory from index `p` to the first
zero byte.  The source requires a terminator to exist (else UB). -/
def cStrToBytes (mem : List Nat) (p : Nat) : Option (List Nat) :=
  takeUntilZero (mem.drop p)

/-- A UTF-8 continuation byte: `0x80 ≤ c < 0xC0`. -/
def contByte (c : Nat) : Bool :=
  decide (0x80 ≤ c ∧ c < 0xC0)

/-- UTF-8 validity of a byte sequence, following the checks performed by
Rust's `str::from_utf8` (as invoked by `CStr::to_str`): ASCII, 2-, 3- and
4-byte sequences with the standard overlong/surrogate/range restrictions. -/
def isValidUtf8 : List Nat → Bool
  | [] => true
  | b :: bs =>
    if b ≤ 0x7F then isValidUtf8 bs
    else if b ≤ 0xC1 then false
    else if b ≤ 0xDF then
      match bs with
      | c1 :: rest => contByte c1 && isValidUtf8 rest
      | [] => false
    else if b ≤ 0xEF then
      match bs with
      | c1 :: c2 :: rest =>
        (if b = 0xE0 then decide (0xA0 ≤ c1 ∧ c1 ≤ 0xBF)
         else if b = 0xED then decide (0x80 ≤ c1 ∧ c1 ≤ 0x9F)
         else contByte c1) && contByte c2 && isValidUtf8 rest
      | _ => false
    else if b ≤ 0xF4 then
      match bs with
      | c1 :: c2 :: c3 :: rest =>
        (if b = 0xF0 then decide (0x90 ≤ c1 ∧ c1 ≤ 0xBF)
         else if b = 0xF4 then decide (0x80 ≤ c1 ∧ c1 ≤ 0x8F)
         else contByte c1) && contByte c2 && contByte c3 && isValidUtf8 rest
      | _ => false
    else false

/-- Result of a checked decode to native text: either the bytes of the
produced `&str`, or the fatal panic raised by `expect` with its message. -/
inductive StrDecode where
  | ok (bytes : List Nat)
  | panicked (msg : String)
deriving DecidableEq

/-- The panic message of `impl AsRef<str> for Str` in src/string.rs. -/
def utf8PanicMsg : String := "LLVM string contained invalid UTF-8 somehow."

namespace llvm

/-- A Rust `&llvm::Str`: in the source this is a transmuted raw pointer to
a null-terminated buffer, so the model carries exactly the pointer value. -/
structure Str where
  ptr : Nat
deriving DecidableEq

/-- `Str::from_ptr`: 0-cost cast from a raw pointer (a `transmute`). -/
def Str.from_ptr (p : Nat) : Str := ⟨p⟩

/-- `Str::as_ptr`: the reverse `transmute`, recovering the raw pointer. -/
def Str.as_ptr (s : Str) : Nat := s.ptr

/-- Private `Str::as_str`: scans for the terminator via `CStr::from_ptr`
then converts with `str::from_utf8_unchecked` — no UTF-8 validation is
performed, the scanned bytes pass straight through as the `str`. -/
def Str.as_str (mem : List Nat) (s : Str) : Option StrDecode :=
  (cStrToBytes mem s.as_ptr).map StrDecode.ok

/-- `impl AsRef<str> for Str`: `CStr::from_ptr(transmute(self)).to_str()`
followed by `.expect("LLVM string contained invalid UTF-8 somehow.")` —
the checked decode, panicking on invalid UTF-8. -/
def Str.as_ref_str (mem : List Nat) (s : Str) : Option StrDecode :=
  (cStrToBytes mem s.as_ptr).map fun bs =>
    if isValidUtf8 bs then StrDecode.ok bs else StrDecode.panicked utf8PanicMsg

/-- `impl Debug for Str`: `write!(f, "{}", self.as_str())` — what gets
written to the formatter is the output of the private `as_str`. -/
def Str.fmtDebug (mem : List Nat) (s : Str) : Option StrDecode :=
  Str.as_str mem s

/-- `impl Display for Str`: `write!(f, "{}", self.as_str())`. -/
def Str.fmtDisplay (mem : List Nat) (s : Str) : Option StrDecode :=
  Str.as_str mem s

/-- `impl AsRef<Str> for Str`: identity. -/
def Str.as_ref_Str (s : Str) : Str := s

/-- A Rust `llvm::String`: owning wrapper around a raw `*mut i8`. -/
structure String where
  ptr : Nat

/-- `String::from_mut`: wrap a raw owned pointer, no validation. -/
def String.from_mut (p : Nat) : String := ⟨p⟩

/-- `impl AsRef<Str> for String`: `Str::from_ptr(self.ptr)`. -/
def String.as_ref (s : String) : Str := Str.from_ptr s.ptr

/-- `impl Deref for String`: `Str::from_ptr(self.ptr)`. -/
def String.deref (s : String) : Str := Str.from_ptr s.ptr

/-- `impl Display for String`: delegates to `Str`'s `Display` through
`self.as_ref()`. -/
def String.fmtDisplay (mem : List Nat) (s : String) : Option StrDecode :=
  Str.fmtDisplay mem s.as_ref

/-- `impl Debug for String`: delegates to `Str`'s `Debug` through
`self.as_ref()`. -/
def String.fmtDebug (mem : List Nat) (s : String) : Option StrDecode :=
  Str.fmtDebug mem s.as_ref

/-- Observable calls into the foreign library. -/
inductive Event where
  | disposeMessage (ptr : Nat)
deriving DecidableEq

/-- `impl Drop for String`: `LLVMDisposeMessage(self.ptr)`, modelled as the
emitted foreign call. -/
def String.dropGlue (s : String) : List Event :=
  [Event.disposeMessage s.ptr]

/-- A Rust move of the (non-`Copy`) wrapper: the value is transferred
unchanged and no foreign call happens. -/
def String.moveVal (s : String) : String × List Event := (s, [])

/-- `n` successive moves of the wrapper, collecting emitted events. -/
def String.movesAux : String → Nat → String × List Event
  | s, 0 => (s, [])
  | s, Nat.succ n =>
    let m := String.moveVal s
    let r := String.movesAux m.1 n
    (r.1, m.2 ++ r.2)

/-- Full lifecycle of an owning wrapper: construct from `p` via `from_mut`,
move it `nMoves` times, then let it go out of scope (running `Drop`). The
result is the trace of foreign calls made during the whole lifetime. -/
def String.lifecycle (p : Nat) (nMoves : Nat) : List Event :=
  let r := String.movesAux (String.from_mut p) nMoves
  r.2 ++ String.dropGlue r.1

/-- A `std::ffi::CString` is, for the purposes of this module, an owned
null-terminated buffer; `as_ptr` is the address of its first byte.  Its
content bytes and the invariant that the buffer at `as_ptr` is the content
followed by the terminator appear as hypotheses of the theorems. -/
structure CString where
  as_ptr : Nat

/-- `impl AsRef<Str> for std::ffi::CString`:
`Str::from_ptr(self.as_ptr())` — a pure cast, no allocation, no events,
and the `CString` value is untouched (it is borrowed, not consumed). -/
def CString.as_ref_Str (c : CString) : Str := Str.from_ptr c.as_ptr

/-- `llvm_str!($s)`: concatenates a terminating zero byte onto the literal
at compile time and takes a view over the start of the resulting static
buffer.  Returns (static buffer, view). -/
def llvm_str (s : List Nat) : List Nat × Str :=
  (s ++ [0], Str.from_ptr 0)

/-- `llvm_str!()` (no argument): a view over the static buffer `&mut 0i8`,
i.e. the one-byte buffer holding only the terminator. -/
def llvm_str_empty : List Nat × Str :=
  ([0], Str.from_ptr 0)

end llvm

/-! ### Helper lemmas -/

theorem takeUntilZero_append (pre rest : List Nat) (h : 0 ∉ pre) :
    takeUntilZero (pre ++ 0 :: rest) = some pre := by
  induction pre with
  | nil => simp [takeUntilZero]
  | cons b bs ih =>
    have hb : ¬ b = 0 := fun hb => h (by simp [hb])
    have hbs : 0 ∉ bs := fun hm => h (List.mem_cons_of_mem _ hm)
    simp [takeUntilZero, hb, ih hbs]

theorem cStrToBytes_of_split (mem : List Nat) (p : Nat) (pre rest : List Nat)
    (hsplit : mem.drop p = pre ++ 0 :: rest) (hnz : 0 ∉ pre) :
    cStrToBytes mem p = some pre := by
  unfold cStrToBytes
  rw [hsplit]
  exact takeUntilZero_append pre rest hnz

theorem movesAux_eq (s : llvm.String) (n : Nat) :
    llvm.String.movesAux s n = (s, []) := by
  induction n with
  | zero => rfl
  | succ n ih => simp [llvm.String.movesAux, llvm.String.moveVal, ih]

/-! ### Claim theorems -/

/-- C1: For every null-terminated byte buffer whose bytes before the
terminator are valid UTF-8, constructing a borrowed view (`Str::from_ptr`)
over the buffer and decoding it to native text — via the checked
`AsRef<str>` conversion or the private `as_str` — yields exactly the bytes
of the buffer up to, and not including, the terminating zero byte. -/
theorem C1_decode_yields_buffer_text (mem : List Nat) (p : Nat)
    (pre rest : List Nat)
    (hsplit : mem.drop p = pre ++ 0 :: rest) (hnz : 0 ∉ pre)
    (hutf8 : isValidUtf8 pre = true) :
    llvm.Str.as_ref_str mem (llvm.Str.from_ptr p) = some (StrDecode.ok pre) ∧
    llvm.Str.as_str mem (llvm.Str.from_ptr p) = some (StrDecode.ok pre) := by
  have hb : cStrToBytes mem p = some pre := cStrToBytes_of_split mem p pre rest hsplit hnz
  constructor
  · simp [llvm.Str.as_ref_str, llvm.Str.from_ptr, llvm.Str.as_ptr, hb, hutf8]
  · simp [llvm.Str.as_str, llvm.Str.from_ptr, llvm.Str.as_ptr, hb]

/-- C1 witness: the buffer "hi\0" followed by junk, viewed at offset 0,
decodes to "hi" (bytes 104, 105). -/
theorem C1_witness :
    llvm.Str.as_ref_str [104, 105, 0, 7] (llvm.Str.from_ptr 0) =
      some (StrDecode.ok [104, 105]) ∧
    llvm.Str.as_str [104, 105, 0, 7] (llvm.Str.from_ptr 0) =
      some (StrDecode.ok [104, 105]) :=
  C1_decode_yields_buffer_text [104, 105, 0, 7] 0 [104, 105] [7]
    (by decide) (by decide) (by decide)

/-- C2: the checked decode of a borrowed view (`impl AsRef<str> for Str`)
panics with the descriptive message exactly when the bytes before the
terminator are not valid UTF-8; on valid UTF-8 it succeeds with those
bytes; every outcome is either the successful decode or that fatal panic —
no recoverable try-decode result exists. -/
theorem C2_checked_decode_panics_iff_invalid (mem : List Nat) (p : Nat)
    (bs : List Nat) (h : cStrToBytes mem p = some bs) :
    (llvm.Str.as_ref_str mem (llvm.Str.from_ptr p) =
        some (StrDecode.panicked utf8PanicMsg) ↔ isValidUtf8 bs = false) ∧
    (isValidUtf8 bs = true →
      llvm.Str.as_ref_str mem (llvm.Str.from_ptr p) = some (StrDecode.ok bs)) ∧
    (llvm.Str.as_ref_str mem (llvm.Str.from_ptr p) = some (StrDecode.ok bs) ∨
      llvm.Str.as_ref_str mem (llvm.Str.from_ptr p) =
        some (StrDecode.panicked utf8PanicMsg)) := by
  refine ⟨?_, ?_, ?_⟩
  · constructor
    · intro heq
      by_contra hvalid
      rw [Bool.not_eq_false] at hvalid
      simp [llvm.Str.as_ref_str, llvm.Str.from_ptr, llvm.Str.as_ptr, h, hvalid] at heq
    · intro hinvalid
      simp [llvm.Str.as_ref_str, llvm.Str.from_ptr, llvm.Str.as_ptr, h, hinvalid]
  · intro hvalid
    simp [llvm.Str.as_ref_str, llvm.Str.from_ptr, llvm.Str.as_ptr, h, hvalid]
  · by_cases hvalid : isValidUtf8 bs = true
    · left; simp [llvm.Str.as_ref_str, llvm.Str.from_ptr, llvm.Str.as_ptr, h, hvalid]
    · right
      rw [Bool.not_eq_true] at hvalid
      simp [llvm.Str.as_ref_str, llvm.Str.from_ptr, llvm.Str.as_ptr, h, hvalid]

/-- C2 witness: on the invalid buffer [0xFF, 0] the checked decode of the
view panics with the message, and the iff instantiates concretely. -/
theorem C2_witness :
    (llvm.Str.as_ref_str [255, 0] (llvm.Str.from_ptr 0) =
        some (StrDecode.panicked utf8PanicMsg) ↔ isValidUtf8 [255] = false) ∧
    (isValidUtf8 [255] = true →
      llvm.Str.as_ref_str [255, 0] (llvm.Str.from_ptr 0) =
        some (StrDecode.ok [255])) ∧
    (llvm.Str.as_ref_str [255, 0] (llvm.Str.from_ptr 0) =
        some (StrDecode.ok [255]) ∨
      llvm.Str.as_ref_str [255, 0] (llvm.Str.from_ptr 0) =
        some (StrDecode.panicked utf8PanicMsg)) :=
  C2_checked_decode_panics_iff_invalid [255, 0] 0 [255] (by decide)

/-- C3 counterexample: the claim says rendering a view with invalid UTF-8
raises the same fatal error as the checked decode.  On the buffer
[0xFF, 0] (invalid UTF-8 before the terminator), `Display` rendering —
which calls the private `as_str`, i.e. `str::from_utf8_unchecked` —
passes the bytes through as `ok` and does not panic, while the checked
`AsRef<str>` decode panics: the two paths differ, so rendering does NOT go
through the single checked decode operation. -/
theorem C3_counterexample :
    isValidUtf8 [255] = false ∧
    llvm.Str.fmtDisplay [255, 0] (llvm.Str.from_ptr 0) =
      some (StrDecode.ok [255]) ∧
    llvm.Str.fmtDebug [255, 0] (llvm.Str.from_ptr 0) =
      some (StrDecode.ok [255]) ∧
    llvm.Str.as_ref_str [255, 0] (llvm.Str.from_ptr 0) =
      some (StrDecode.panicked utf8PanicMsg) ∧
    llvm.Str.fmtDisplay [255, 0] (llvm.Str.from_ptr 0) ≠
      llvm.Str.as_ref_str [255, 0] (llvm.Str.from_ptr 0) := by
  refine ⟨by decide, by decide, by decide, by decide, by decide⟩

/-- C3 amended: rendering a view for display/debugging goes through the
private `as_str`, which performs an UNCHECKED UTF-8 conversion: whenever a
terminator exists it writes the scanned bytes unvalidated and never raises
the UTF-8 fatal error; only the `AsRef<str>` conversion is checked. -/
theorem C3_render_is_unchecked (mem : List Nat) (p : Nat) (bs : List Nat)
    (h : cStrToBytes mem p = some bs) :
    llvm.Str.fmtDisplay mem (llvm.Str.from_ptr p) = some (StrDecode.ok bs) ∧
    llvm.Str.fmtDebug mem (llvm.Str.from_ptr p) = some (StrDecode.ok bs) ∧
    llvm.Str.fmtDisplay mem (llvm.Str.from_ptr p) ≠
      some (StrDecode.panicked utf8PanicMsg) := by
  refine ⟨?_, ?_, ?_⟩
  · simp [llvm.Str.fmtDisplay, llvm.Str.as_str, llvm.Str.from_ptr, llvm.Str.as_ptr, h]
  · simp [llvm.Str.fmtDebug, llvm.Str.as_str, llvm.Str.from_ptr, llvm.Str.as_ptr, h]
  · simp [llvm.Str.fmtDisplay, llvm.Str.as_str, llvm.Str.from_ptr, llvm.Str.as_ptr, h]

/-- C3 witness: on the invalid buffer [0xFF, 0], rendering writes the raw
byte 0xFF and does not panic. -/
theorem C3_witness :
    llvm.Str.fmtDisplay [255, 0] (llvm.Str.from_ptr 0) =
      some (StrDecode.ok [255]) ∧
    llvm.Str.fmtDebug [255, 0] (llvm.Str.from_ptr 0) =
      some (StrDecode.ok [255]) ∧
    llvm.Str.fmtDisplay [255, 0] (llvm.Str.from_ptr 0) ≠
      some (StrDecode.panicked utf8PanicMsg) :=
  C3_render_is_unchecked [255, 0] 0 [255] (by decide)

/-- C4: over the whole lifecycle of an owning wrapper — constructed with
`String::from_mut p`, moved any number of times, then dropped on scope
exit — the foreign-call trace is exactly one `LLVMDisposeMessage` call,
and it receives exactly the original pointer `p`. -/
theorem C4_dispose_exactly_once (p : Nat) (nMoves : Nat) :
    llvm.String.lifecycle p nMoves = [llvm.Event.disposeMessage p] ∧
    (llvm.String.lifecycle p nMoves).count (llvm.Event.disposeMessage p) = 1 := by
  have h : llvm.String.lifecycle p nMoves = [llvm.Event.disposeMessage p] := by
    unfold llvm.String.lifecycle
    rw [movesAux_eq]
    rfl
  exact ⟨h, by rw [h]; simp⟩

/-- C5: the borrowed view obtained from an owning wrapper via `Deref` or
`AsRef<Str>` is the very view `Str::from_ptr` constructs from the held
pointer, so both paths decode to identical text (checked and unchecked). -/
theorem C5_wrapper_view_equals_direct_view (mem : List Nat) (s : llvm.String) :
    llvm.String.deref s = llvm.Str.from_ptr s.ptr ∧
    llvm.String.as_ref s = llvm.Str.from_ptr s.ptr ∧
    llvm.Str.as_ref_str mem (llvm.String.deref s) =
      llvm.Str.as_ref_str mem (llvm.Str.from_ptr s.ptr) ∧
    llvm.Str.as_str mem (llvm.String.as_ref s) =
      llvm.Str.as_str mem (llvm.Str.from_ptr s.ptr) := by
  exact ⟨rfl, rfl, rfl, rfl⟩

/-- C6: for every pointer `p` satisfying the view constructor's
precondition (a terminator exists in valid memory), `Str::from_ptr`
followed by `as_ptr` returns exactly `p`; `as_ptr` is a pure total
function (it always succeeds and, being a plain function into `Nat`,
has no side effects in this model). -/
theorem C6_as_ptr_from_ptr_identity (mem : List Nat) (p : Nat)
    (_h : (cStrToBytes mem p).isSome = true) :
    llvm.Str.as_ptr (llvm.Str.from_ptr p) = p := by
  rfl

/-- C6 witness: at the one-byte buffer [0] and pointer 0 the precondition
holds and the round-trip is the identity. -/
theorem C6_witness :
    (cStrToBytes [0] 0).isSome = true ∧
    llvm.Str.as_ptr (llvm.Str.from_ptr 0) = 0 :=
  ⟨by decide, C6_as_ptr_from_ptr_identity [0] 0 (by decide)⟩

/-- C7: for every native text `T` (a valid-UTF-8 byte sequence) containing
no zero byte, `llvm_str!` produces the static buffer `T ++ [0]` — exactly
one terminating zero byte appended — and a view whose checked decode
stops exactly at that terminator and yields `T` unchanged. -/
theorem C7_llvm_str_roundtrip (T : List Nat) (hnz : 0 ∉ T)
    (hutf8 : isValidUtf8 T = true) :
    (llvm.llvm_str T).1 = T ++ [0] ∧
    llvm.Str.as_ref_str (llvm.llvm_str T).1 (llvm.llvm_str T).2 =
      some (StrDecode.ok T) := by
  constructor
  · rfl
  · have hb : cStrToBytes (T ++ [0]) 0 = some T := by
      unfold cStrToBytes
      rw [List.drop_zero]
      have : T ++ [0] = T ++ 0 :: [] := rfl
      rw [this]
      exact takeUntilZero_append T [] hnz
    simp [llvm.llvm_str, llvm.Str.as_ref_str, llvm.Str.from_ptr, llvm.Str.as_ptr,
      hb, hutf8]

/-- C7 witness: `llvm_str!("my module")` yields the 10-byte buffer
`my module` plus terminator, and decodes back to `my module`. -/
theorem C7_witness :
    0 ∉ [109, 121, 32, 109, 111, 100, 117, 108, 101] ∧
    (llvm.llvm_str [109, 121, 32, 109, 111, 100, 117, 108, 101]).1 =
      [109, 121, 32, 109, 111, 100, 117, 108, 101] ++ [0] ∧
    llvm.Str.as_ref_str (llvm.llvm_str [109, 121, 32, 109, 111, 100, 117, 108, 101]).1
        (llvm.llvm_str [109, 121, 32, 109, 111, 100, 117, 108, 101]).2 =
      some (StrDecode.ok [109, 121, 32, 109, 111, 100, 117, 108, 101]) :=
  ⟨by decide,
   C7_llvm_str_roundtrip [109, 121, 32, 109, 111, 100, 117, 108, 101]
     (by decide) (by decide)⟩

/-- C8: `llvm_str!()` with no argument produces exactly the same buffer
and view as `llvm_str!("")`: the decoded text is empty, and scanning from
the view's raw pointer finds the terminator at offset 0 (the byte at the
pointer is the zero byte and the scan yields the empty byte sequence). -/
theorem C8_empty_equivalence :
    llvm.llvm_str_empty = llvm.llvm_str [] ∧
    llvm.Str.as_ref_str llvm.llvm_str_empty.1 llvm.llvm_str_empty.2 =
      some (StrDecode.ok []) ∧
    llvm.llvm_str_empty.1.get? (llvm.Str.as_ptr llvm.llvm_str_empty.2) = some 0 ∧
    cStrToBytes llvm.llvm_str_empty.1 (llvm.Str.as_ptr llvm.llvm_str_empty.2) =
      some [] := by
  refine ⟨by decide, by decide, by decide, by decide⟩

/-- C9: two independent borrowed views constructed by separate calls of
`Str::from_ptr` on the same pointer `p` decode to identical text, both via
the checked conversion and the unchecked one: decoding is a function of
the pointer and the memory contents only. -/
theorem C9_two_views_decode_equal (mem : List Nat) (p : Nat)
    (v1 v2 : llvm.Str) (h1 : v1 = llvm.Str.from_ptr p)
    (h2 : v2 = llvm.Str.from_ptr p) :
    llvm.Str.as_ref_str mem v1 = llvm.Str.as_ref_str mem v2 ∧
    llvm.Str.as_str mem v1 = llvm.Str.as_str mem v2 := by
  subst h1 h2
  exact ⟨rfl, rfl⟩

/-- C9 witness: two views built from pointer 0 over the buffer "hi\0"
agree on both decodes. -/
theorem C9_witness :
    llvm.Str.as_ref_str [104, 105, 0] (llvm.Str.from_ptr 0) =
      llvm.Str.as_ref_str [104, 105, 0] (llvm.Str.from_ptr 0) ∧
    llvm.Str.as_str [104, 105, 0] (llvm.Str.from_ptr 0) =
      llvm.Str.as_str [104, 105, 0] (llvm.Str.from_ptr 0) :=
  C9_two_views_decode_equal [104, 105, 0] 0
    (llvm.Str.from_ptr 0) (llvm.Str.from_ptr 0) rfl rfl

/-- C10: the view obtained from a `CString` via its `AsRef<Str>` impl has
raw pointer equal to `c.as_ptr()`, and therefore — when the `CString`'s
content (the bytes at `c.as_ptr` before the terminator) is valid UTF-8 —
decodes to exactly that content.  The conversion is a pure cast: it
returns a view and touches nothing else (no allocation, no events, no
consumption of the `CString`). -/
theorem C10_cstring_as_ref (mem : List Nat) (c : llvm.CString)
    (content rest : List Nat)
    (hbuf : mem.drop c.as_ptr = content ++ 0 :: rest) (hnz : 0 ∉ content)
    (hutf8 : isValidUtf8 content = true) :
    llvm.Str.as_ptr (llvm.CString.as_ref_Str c) = c.as_ptr ∧
    llvm.Str.as_ref_str mem (llvm.CString.as_ref_Str c) =
      some (StrDecode.ok content) := by
  have hb : cStrToBytes mem c.as_ptr = some content :=
    cStrToBytes_of_split mem c.as_ptr content rest hbuf hnz
  constructor
  · rfl
  · simp [llvm.CString.as_ref_Str, llvm.Str.as_ref_str, llvm.Str.from_ptr,
      llvm.Str.as_ptr, hb, hutf8]

/-- C10 witness: a `CString` whose buffer "ok\0" sits at address 1 of
memory yields a view with pointer 1 that decodes to "ok". -/
theorem C10_witness :
    llvm.Str.as_ptr (llvm.CString.as_ref_Str ⟨1⟩) = 1 ∧
    llvm.Str.as_ref_str [9, 111, 107, 0] (llvm.CString.as_ref_Str ⟨1⟩) =
      some (StrDecode.ok [111, 107]) :=
  C10_cstring_as_ref [9, 111, 107, 0] ⟨1⟩ [111, 107] []
    (by decide) (by decide) (by decide)
